import Mathlib

/-!
Verification of the Icarus orchestrator's job scheduler and lifecycle manager.

The definitions below are a shallow embedding of the Python sources under
`src/orchestrator` and `src/sentinel`: job records and status updates from
`job_queue.py` and `database.py`, the two-stage execution workflow of
`JobQueue._execute_job`, the three-way supervision race of
`JobQueue._wait_for_container_with_events`, the polling wait of
`JobQueue._wait_for_container`, approval and rejection with their cleanup,
the admission decision of `JobQueue._process_queue`, the host sentinel of
`sentinel/monitor.py`, and the agent callback endpoint of `main.py`.
Host percentages are modelled as rationals, exit codes as integers, and
side effects on the Docker driver as an explicit effect log.
-/

/-- Job lifecycle states, from `JobStatus` in src/orchestrator/database.py. -/
inductive JobStatus
  | pending
  | building
  | checking
  | awaiting_approval
  | approved
  | rejected
  | completed
  | failed
deriving DecidableEq, Repr

/-- Terminal statuses, from the list `[COMPLETED, FAILED, REJECTED]` tested in
`JobQueue._update_job_status`. -/
def isTerminal : JobStatus → Bool
  | .completed => true
  | .failed => true
  | .rejected => true
  | _ => false

/-- A row of the `jobs` table, from the `Job` model in
src/orchestrator/database.py.  `completedAtSet` records whether the
nullable `completed_at` column has been written. -/
structure Job where
  jobId : String
  task : String
  projectPath : String
  status : JobStatus
  errorMessage : Option String
  builderContainerId : Option String
  checkerContainerId : Option String
  completedAtSet : Bool
deriving DecidableEq, Repr

/-- Job creation performed by `JobQueue.submit_job`: a fresh row with status
`PENDING` and all nullable columns unset. -/
def submitJob (jobId task projectPath : String) : Job :=
  { jobId := jobId
    task := task
    projectPath := projectPath
    status := JobStatus.pending
    errorMessage := none
    builderContainerId := none
    checkerContainerId := none
    completedAtSet := false }

/-- Status update, from `JobQueue._update_job_status`: the status is written
unconditionally; the error message is written only when the argument is
truthy (neither absent nor the empty string); `completed_at` is set when the
new status is terminal. -/
def updateJobStatus (j : Job) (status : JobStatus) (errorMessage : Option String) : Job :=
  let j1 := { j with status := status }
  let j2 :=
    match errorMessage with
    | some msg => if msg = "" then j1 else { j1 with errorMessage := some msg }
    | none => j1
  if isTerminal status then { j2 with completedAtSet := true } else j2

/-- Side effects issued to the Docker driver (src/orchestrator/docker_manager.py)
by the scheduler and the sentinel. -/
inductive Effect
  | createVolume (name : String)
  | spawnBuilder (containerId : String)
  | spawnChecker (containerId : String)
  | stopContainer (containerId : String)
  | removeVolume (name : String)
  | pauseContainer (containerId : String)
  | resumeContainer (containerId : String)
deriving DecidableEq, Repr

/-- Workspace volume naming, from `DockerManager.create_workspace_volume` and
the `f"icarus_workspace_{job_id}"` strings in `approve_job` / `reject_job`. -/
def workspaceVolumeName (jobId : String) : String :=
  "icarus_workspace_" ++ jobId

/-- Container states observed through the Docker client, as tested by
`JobQueue._wait_for_container` and the sentinel.  `notFound` stands for the
`docker.errors.NotFound` exception. -/
inductive PollStatus
  | created
  | running
  | paused
  | exited (code : Int)
  | dead (code : Int)
  | notFound
deriving DecidableEq, Repr, BEq

/-- Decided result of the container-wait task in `JobQueue._wait_for_container`:
a read exit code, a `RuntimeError` for an externally removed container, or a
`TimeoutError` after the stage budget. -/
inductive WaitOutcome
  | exit (code : Int)
  | removed
  | timeout (limit : Nat)
deriving DecidableEq, Repr

/-- Per-stage budget: the `timeout: int = 600` default of
`JobQueue._wait_for_container_with_events` and `JobQueue._wait_for_container`. -/
def stageTimeoutDefault : Nat := 600

/-- The polling loop of `JobQueue._wait_for_container` over a trace of
observations `(container status, elapsed seconds)`.  Exited or dead containers
yield their exit code; a missing container raises; once `elapsed > timeout`
the loop stops the container and raises `TimeoutError`.  `none` means the
trace ended with the loop still polling. -/
def waitForContainer (containerId : String) (timeout : Nat) :
    List (PollStatus × Nat) → Option WaitOutcome × List Effect
  | [] => (none, [])
  | (p, elapsed) :: rest =>
    match p with
    | .notFound => (some WaitOutcome.removed, [])
    | .exited c => (some (WaitOutcome.exit c), [])
    | .dead c => (some (WaitOutcome.exit c), [])
    | _ =>
      if timeout < elapsed then
        (some (WaitOutcome.timeout timeout), [Effect.stopContainer containerId])
      else
        waitForContainer containerId timeout rest

/-- Inputs to one stage's three-way race in
`JobQueue._wait_for_container_with_events`: whether the per-job error and
complete events had fired when `asyncio.wait` returned, the error text stored
in the bus's data slot, and the result the container-wait task produced. -/
structure StageEnv where
  errorDone : Bool
  completeDone : Bool
  errorSlot : Option String
  waitOutcome : WaitOutcome
deriving DecidableEq, Repr

/-- Which of the three raced outcomes the supervisor acts on. -/
inductive StageSignal
  | errorCb (msg : String)
  | completeCb
  | waitDone (w : WaitOutcome)
deriving DecidableEq, Repr

/-- Selection logic of `_wait_for_container_with_events`: the error event is
checked first, then the complete event, otherwise the wait task's result is
taken; the losing tasks are cancelled.  The error text defaults to
`"Agent reported error"` as in `data.get("error", ...)`. -/
def resolveRace (st : StageEnv) : StageSignal :=
  if st.errorDone then StageSignal.errorCb (st.errorSlot.getD "Agent reported error")
  else if st.completeDone then StageSignal.completeCb
  else StageSignal.waitDone st.waitOutcome

/-- Value or exception `_wait_for_container_with_events` delivers to
`_execute_job` for each signal: the error callback raises
`RuntimeError(f"Agent error: ...")`, the complete callback returns 0, and the
wait task returns its exit code or re-raises its removal / timeout error. -/
def stageOutcome (containerId : String) : StageSignal → Except String Int
  | .errorCb msg => Except.error ("Agent error: " ++ msg)
  | .completeCb => Except.ok 0
  | .waitDone (.exit c) => Except.ok c
  | .waitDone .removed =>
    Except.error ("Container " ++ containerId ++ " was removed externally")
  | .waitDone (.timeout t) =>
    Except.error ("Container " ++ containerId ++ " exceeded " ++ toString t ++ "s timeout")

/-- Driver effects of the stage: only the timeout branch of
`_wait_for_container` calls `stop_container`; when an event wins the race the
wait task is cancelled before it can act. -/
def stageEffects (containerId : String) : StageSignal → List Effect
  | .waitDone (.timeout _) => [Effect.stopContainer containerId]
  | _ => []

/-- Environment of one run of `JobQueue._execute_job`: whether the setup
steps preceding the `BUILDING` write (the job fetch and
`create_workspace_volume`) raised — and with which exception text — the
container ids Docker assigns to the two agents, and the race inputs of each
stage. -/
structure ExecEnv where
  setupError : Option String
  builderCid : String
  checkerCid : String
  builderStage : StageEnv
  checkerStage : StageEnv
deriving Repr

/-- A status write issued through `_update_job_status`: the status and the
error message passed along with it. -/
abbrev StatusWrite := JobStatus × Option String

/-- The Builder → Checker stages of `JobQueue._execute_job`, entered once the
job fetch and `create_workspace_volume` have succeeded, given the resolved
outcome of each stage.  Builder failure or non-zero exit marks the job
`FAILED` and skips the Checker; Checker failure marks `FAILED`; any Checker
exit code leads to `AWAITING_APPROVAL`.  The `finally` block of the source
cancels telemetry and drops the in-memory bus only: it issues no driver
effects.  Returns the final job row, the status writes in order, and the
driver effects in order. -/
def execStages (j : Job) (builderCid checkerCid : String)
    (builderRes checkerRes : Except String Int)
    (builderEffs checkerEffs : List Effect) :
    Job × List StatusWrite × List Effect :=
  let vol := workspaceVolumeName j.jobId
  let effs1 := [Effect.createVolume vol, Effect.spawnBuilder builderCid]
  let j1 := updateJobStatus j JobStatus.building none
  let j2 := { j1 with builderContainerId := some builderCid }
  match builderRes with
  | Except.error msg =>
    (updateJobStatus j2 JobStatus.failed (some msg),
     [(JobStatus.building, none), (JobStatus.failed, some msg)],
     effs1 ++ builderEffs)
  | Except.ok bcode =>
    if bcode ≠ 0 then
      let msg := "Builder exited with non-zero code: " ++ toString bcode
      (updateJobStatus j2 JobStatus.failed (some msg),
       [(JobStatus.building, none), (JobStatus.failed, some msg)],
       effs1 ++ builderEffs)
    else
      let j3 := updateJobStatus j2 JobStatus.checking none
      let j4 := { j3 with checkerContainerId := some checkerCid }
      let effs2 := effs1 ++ builderEffs ++ [Effect.spawnChecker checkerCid]
      match checkerRes with
      | Except.error msg =>
        (updateJobStatus j4 JobStatus.failed (some msg),
         [(JobStatus.building, none), (JobStatus.checking, none),
          (JobStatus.failed, some msg)],
         effs2 ++ checkerEffs)
      | Except.ok _ =>
        (updateJobStatus j4 JobStatus.awaiting_approval none,
         [(JobStatus.building, none), (JobStatus.checking, none),
          (JobStatus.awaiting_approval, none)],
         effs2 ++ checkerEffs)

/-- The whole `try` body of `JobQueue._execute_job` with its `except` handler:
if the job fetch or `create_workspace_volume` raises — both re-raise on
failure, before the `BUILDING` write and before any driver effect — the
handler writes `FAILED` with the exception text directly; otherwise the
two-stage workflow runs. -/
def execWithOutcomes (j : Job) (setupErr : Option String) (builderCid checkerCid : String)
    (builderRes checkerRes : Except String Int)
    (builderEffs checkerEffs : List Effect) :
    Job × List StatusWrite × List Effect :=
  match setupErr with
  | some msg =>
    (updateJobStatus j JobStatus.failed (some msg), [(JobStatus.failed, some msg)], [])
  | none =>
    execStages j builderCid checkerCid builderRes checkerRes builderEffs checkerEffs

/-- `JobQueue._execute_job` with each stage supervised through the three-way
race of `_wait_for_container_with_events`. -/
def executeJob (j : Job) (env : ExecEnv) : Job × List StatusWrite × List Effect :=
  execWithOutcomes j env.setupError env.builderCid env.checkerCid
    (stageOutcome env.builderCid (resolveRace env.builderStage))
    (stageOutcome env.checkerCid (resolveRace env.checkerStage))
    (stageEffects env.builderCid (resolveRace env.builderStage))
    (stageEffects env.checkerCid (resolveRace env.checkerStage))

/-- `JobQueue.approve_job`: writes `APPROVED`, stops whichever container ids
are recorded on the row, removes the workspace volume, then writes
`COMPLETED`.  The current status is never inspected. -/
def approveJob (j : Job) : Job × List StatusWrite × List Effect :=
  let j1 := updateJobStatus j JobStatus.approved none
  let stopB := match j1.builderContainerId with
    | some cid => [Effect.stopContainer cid]
    | none => []
  let stopC := match j1.checkerContainerId with
    | some cid => [Effect.stopContainer cid]
    | none => []
  let effs := stopB ++ stopC ++ [Effect.removeVolume (workspaceVolumeName j.jobId)]
  let j2 := updateJobStatus j1 JobStatus.completed none
  (j2, [(JobStatus.approved, none), (JobStatus.completed, none)], effs)

/-- `JobQueue.reject_job`: writes `REJECTED` with the optional comment as
error message, stops recorded containers and removes the workspace volume.
The current status is never inspected. -/
def rejectJob (j : Job) (comment : Option String) : Job × List StatusWrite × List Effect :=
  let j1 := updateJobStatus j JobStatus.rejected comment
  let stopB := match j1.builderContainerId with
    | some cid => [Effect.stopContainer cid]
    | none => []
  let stopC := match j1.checkerContainerId with
    | some cid => [Effect.stopContainer cid]
    | none => []
  let effs := stopB ++ stopC ++ [Effect.removeVolume (workspaceVolumeName j.jobId)]
  (j1, [(JobStatus.rejected, comment)], effs)

/-- Host admission levels, from `AlertLevel` in src/sentinel/monitor.py. -/
inductive AlertLevel
  | green
  | yellow
  | red
deriving DecidableEq, Repr

/-- The host-load percentages the sentinel and the admission loop compare,
from the `cpu_percent` / `ram_percent` entries of
`SystemMonitor.get_system_stats`. -/
structure HostStats where
  cpuPercent : ℚ
  ramPercent : ℚ
deriving DecidableEq, Repr

/-- `max(cpu_percent, ram_percent)` as computed in
`SystemMonitor._check_resources` and `JobQueue._process_queue`. -/
def maxUsage (s : HostStats) : ℚ :=
  if s.cpuPercent ≤ s.ramPercent then s.ramPercent else s.cpuPercent

/-- `SystemMonitor.get_system_stats`: a successful psutil sample is returned
as-is; on any sampling exception the failure is logged and zeroed "safe
defaults" are returned. -/
def getSystemStats : Option HostStats → HostStats
  | some s => s
  | none => { cpuPercent := 0, ramPercent := 0 }

/-- Threshold configuration of `SystemMonitor.__init__`. -/
structure SentinelConfig where
  yellowThreshold : ℚ
  redThreshold : ℚ
deriving Repr

/-- Defaults `yellow_threshold=80.0`, `red_threshold=90.0` of
`SystemMonitor.__init__` (also passed in src/orchestrator/main.py). -/
def defaultSentinelConfig : SentinelConfig :=
  { yellowThreshold := 80, redThreshold := 90 }

/-- Mutable sentinel state: `current_alert` and `paused_containers`. -/
structure SentinelState where
  level : AlertLevel
  paused : List String
deriving DecidableEq, Repr

/-- `SystemMonitor._trigger_red_alert`: every running `icarus_` container in
the environment is paused and remembered (`pause_container` swallows its own
exceptions, so each running container is appended). -/
def triggerRedAlert (env : List (String × PollStatus)) (st : SentinelState) :
    SentinelState × List Effect :=
  let toPause := (env.filter (fun c => c.2 == PollStatus.running)).map Prod.fst
  ({ level := AlertLevel.red, paused := st.paused ++ toPause },
   toPause.map Effect.pauseContainer)

/-- `SystemMonitor._clear_alerts`: when the alert being cleared is RED and
containers were remembered, each remembered container still reported as
`paused` is resumed and the remembered set is cleared; afterwards
`_check_resources` sets the level to GREEN. -/
def clearAlerts (env : List (String × PollStatus)) (st : SentinelState) :
    SentinelState × List Effect :=
  if st.level = AlertLevel.red ∧ st.paused ≠ [] then
    ({ level := AlertLevel.green, paused := [] },
     (st.paused.filter (fun cid => env.lookup cid == some PollStatus.paused)).map
       Effect.resumeContainer)
  else
    ({ level := AlertLevel.green, paused := st.paused }, [])

/-- One poll of `SystemMonitor._check_resources`: the sample (or the zeroed
defaults on sampling failure) is compared against the thresholds;
`load ≥ red` enters RED (pausing containers) unless already RED;
`load ≥ yellow` enters YELLOW only from GREEN; otherwise a non-GREEN level is
cleared to GREEN (resuming containers remembered under RED). -/
def checkResources (cfg : SentinelConfig) (env : List (String × PollStatus))
    (st : SentinelState) (sample : Option HostStats) :
    SentinelState × List Effect :=
  let stats := getSystemStats sample
  let load := maxUsage stats
  if cfg.redThreshold ≤ load then
    if st.level ≠ AlertLevel.red then triggerRedAlert env st else (st, [])
  else if cfg.yellowThreshold ≤ load then
    if st.level = AlertLevel.green then
      ({ level := AlertLevel.yellow, paused := st.paused }, [])
    else (st, [])
  else
    if st.level ≠ AlertLevel.green then clearAlerts env st else (st, [])

/-- Concurrency ceiling `max_concurrent = 3` of `JobQueue.__init__`. -/
def maxConcurrent : Nat := 3

/-- Outcome of one iteration of the admission loop for a dequeued job id. -/
inductive QueueDecision
  | requeueBusy
  | requeueLoad
  | dispatch
deriving DecidableEq, Repr

/-- The per-job admission decision of `JobQueue._process_queue`: re-enqueue
while `len(active_jobs) >= max_concurrent`; with a sentinel configured,
take a fresh `get_system_stats()` sample and re-enqueue when
`max(cpu_percent, ram_percent) >= 80` (a hardcoded threshold — the sentinel's
`current_alert` level is never read); otherwise mark the job in-flight and
dispatch it. -/
def processQueueStep (activeCount : Nat) (sentinelSample : Option HostStats) :
    QueueDecision :=
  if maxConcurrent ≤ activeCount then QueueDecision.requeueBusy
  else
    match sentinelSample with
    | some stats =>
      if (80 : ℚ) ≤ maxUsage stats then QueueDecision.requeueLoad
      else QueueDecision.dispatch
    | none => QueueDecision.dispatch

/-- Columns of the `Telemetry` model in src/orchestrator/database.py. -/
def telemetryColumns : List String :=
  ["id", "job_id", "timestamp", "cpu_percent", "ram_mb", "current_tool", "container_id"]

/-- Columns of the `AuditLog` model in src/orchestrator/database.py. -/
def auditLogColumns : List String :=
  ["id", "job_id", "report", "created_at"]

/-- Keyword arguments of the `Telemetry(...)` construction in
`JobQueue._collect_telemetry`. -/
def samplerTelemetryKwargs : List String :=
  ["job_id", "cpu_usage", "ram_usage_mb", "container_id"]

/-- Keyword arguments of the `Telemetry(...)` construction in the
`agent_callback` endpoint of src/orchestrator/main.py. -/
def callbackTelemetryKwargs : List String :=
  ["job_id", "cpu_usage", "ram_usage_mb", "current_tool"]

/-- Keyword arguments of the `AuditLog(...)` construction in `agent_callback`. -/
def callbackAuditKwargs : List String :=
  ["job_id", "audit_report"]

/-- The SQLAlchemy declarative constructor: each keyword argument must be an
attribute of the model; the first unknown keyword raises
`TypeError("... is an invalid keyword argument")` and no row is produced. -/
def constructRow (cols kwargs : List String) : Except String Unit :=
  match kwargs.find? (fun k => !cols.contains k) with
  | some k => Except.error (k ++ " is an invalid keyword argument")
  | none => Except.ok ()

/-- Result of one iteration of the `_collect_telemetry` sampler loop. -/
structure SamplerStep where
  inserted : Bool
  continues : Bool
deriving DecidableEq, Repr

/-- One iteration of `JobQueue._collect_telemetry`: a missing container or a
container not `running` stops the loop; otherwise a `Telemetry` row is
constructed — any exception there is caught by the loop's generic handler,
which breaks without inserting. -/
def collectTelemetryStep (containerStatus : Option PollStatus) : SamplerStep :=
  match containerStatus with
  | none => { inserted := false, continues := false }
  | some s =>
    if s ≠ PollStatus.running then { inserted := false, continues := false }
    else
      match constructRow telemetryColumns samplerTelemetryKwargs with
      | Except.error _ => { inserted := false, continues := false }
      | Except.ok _ => { inserted := true, continues := true }

/-- JSON fields of an agent callback payload, from the `data: dict` handling
in `agent_callback`. -/
structure CallbackData where
  currentTool : Option String
  cpuUsage : Option ℚ
  ramUsageMb : Option ℚ
  status : Option String
  error : Option String
  auditReport : Option String
deriving Repr

/-- Rows the callback endpoint can commit. -/
inductive RowInsert
  | telemetryRow
  | auditRow
deriving DecidableEq, Repr

/-- Signals the callback endpoint can raise on the per-job bus. -/
inductive BusSignal
  | setErrorEvent (msg : String)
  | setCompleteEvent
deriving DecidableEq, Repr

/-- HTTP result of the callback endpoint: a 200 acknowledgement, or the 500
raised when processing throws. -/
inductive HttpResult
  | ok200
  | error500
deriving DecidableEq, Repr

/-- Observable outcome of one `agent_callback` invocation. -/
structure CallbackOutcome where
  http : HttpResult
  rows : List RowInsert
  signals : List BusSignal
deriving DecidableEq, Repr

/-- Status-signal handling at the end of `agent_callback`: `status == "error"`
stores the error text (default `"Unknown error"`) and sets the error event,
`status == "completed"` sets the complete event — in both cases only when the
job id is present in `job_queue.job_events`. -/
def handleStatusSignals (busPresent : Bool) (d : CallbackData) : List BusSignal :=
  if d.status = some "error" then
    if busPresent then [BusSignal.setErrorEvent (d.error.getD "Unknown error")] else []
  else if d.status = some "completed" then
    if busPresent then [BusSignal.setCompleteEvent] else []
  else []

/-- Audit-report block of `agent_callback`, entered after the telemetry block:
a payload carrying `audit_report` constructs an `AuditLog` row; an exception
there aborts the handler with a 500, keeping any row already committed. -/
def handleAudit (busPresent : Bool) (d : CallbackData) (rows : List RowInsert) :
    CallbackOutcome :=
  if d.auditReport.isSome then
    match constructRow auditLogColumns callbackAuditKwargs with
    | Except.error _ => { http := HttpResult.error500, rows := rows, signals := [] }
    | Except.ok _ =>
      { http := HttpResult.ok200
        rows := rows ++ [RowInsert.auditRow]
        signals := handleStatusSignals busPresent d }
  else
    { http := HttpResult.ok200, rows := rows, signals := handleStatusSignals busPresent d }

/-- The `agent_callback` endpoint of src/orchestrator/main.py: a payload with
`current_tool` first constructs a `Telemetry` row (an exception yields a 500
and nothing else happens), then the audit block and the status signals run.
`busPresent` states whether `job_id in job_queue.job_events`. -/
def agentCallback (busPresent : Bool) (d : CallbackData) : CallbackOutcome :=
  if d.currentTool.isSome then
    match constructRow telemetryColumns callbackTelemetryKwargs with
    | Except.error _ => { http := HttpResult.error500, rows := [], signals := [] }
    | Except.ok _ => handleAudit busPresent d [RowInsert.telemetryRow]
  else handleAudit busPresent d []

/-- Character-list prefix test (needle against the front of the haystack). -/
def charsStartWith : List Char → List Char → Bool
  | _, [] => true
  | [], _ :: _ => false
  | h :: t, nh :: nt => h == nh && charsStartWith t nt

/-- Character-list substring test. -/
def charsContain : List Char → List Char → Bool
  | [], needle => charsStartWith [] needle
  | h :: t, needle => charsStartWith (h :: t) needle || charsContain t needle

/-- Substring containment on strings, used to state the spec's
"error message contains ..." phrases. -/
def strContains (hay needle : String) : Bool :=
  charsContain hay.data needle.data

/-- Modelled from the spec: the permitted edges of the status state machine of
§4.E (pending → building → checking → awaiting_approval → approved →
completed, with failed reachable from building and checking and rejected from
awaiting_approval).  The source has no such transition table; this definition
exists to compare the code's writes against the spec's machine. -/
def specAllowedEdge : JobStatus → JobStatus → Bool
  | .pending, .building => true
  | .building, .checking => true
  | .building, .failed => true
  | .checking, .awaiting_approval => true
  | .checking, .failed => true
  | .awaiting_approval, .approved => true
  | .awaiting_approval, .rejected => true
  | .approved, .completed => true
  | _, _ => false

/-- A sequence of statuses forms a chain of permitted edges from a start. -/
def edgeChain : JobStatus → List JobStatus → Bool
  | _, [] => true
  | s, t :: rest => specAllowedEdge s t && edgeChain t rest

/-! ## Helper lemmas -/

/-- Any effect a stage's supervision emits is a stop of that stage's own
container (and only the timeout branch emits it). -/
theorem stageEffects_mem (cid : String) (sig : StageSignal) (e : Effect)
    (he : e ∈ stageEffects cid sig) : e = Effect.stopContainer cid := by
  cases sig with
  | errorCb m => simp [stageEffects] at he
  | completeCb => simp [stageEffects] at he
  | waitDone w =>
    cases w with
    | exit c => simp [stageEffects] at he
    | removed => simp [stageEffects] at he
    | timeout t => simpa [stageEffects] using he

/-- `_clear_alerts` followed by the level assignment in `_check_resources`
always leaves the level GREEN. -/
theorem clearAlerts_level (env : List (String × PollStatus)) (st : SentinelState) :
    (clearAlerts env st).1.level = AlertLevel.green := by
  unfold clearAlerts
  split <;> rfl

/-- With the per-job bus absent, the status block of `agent_callback`
signals nothing. -/
theorem handleStatusSignals_busAbsent (d : CallbackData) :
    handleStatusSignals false d = [] := by
  unfold handleStatusSignals
  split
  · rfl
  · split <;> rfl

/-- A trace on which the container polls as `running` throughout and the
elapsed time eventually exceeds the budget makes `_wait_for_container` stop
the container and raise the timeout. -/
theorem waitForContainer_timeout (cid : String) (timeout : Nat) :
    ∀ trace : List (PollStatus × Nat),
      (∀ p ∈ trace, p.1 = PollStatus.running) →
      (∃ p ∈ trace, timeout < p.2) →
      waitForContainer cid timeout trace
        = (some (WaitOutcome.timeout timeout), [Effect.stopContainer cid]) := by
  intro trace
  induction trace with
  | nil =>
    intro _ h2
    simp at h2
  | cons p rest ih =>
    intro h1 h2
    obtain ⟨s, e⟩ := p
    have hs : s = PollStatus.running := h1 (s, e) (List.mem_cons_self _ _)
    subst hs
    by_cases he : timeout < e
    · simp [waitForContainer, he]
    · have h1r : ∀ q ∈ rest, q.1 = PollStatus.running :=
        fun q hq => h1 q (List.mem_cons_of_mem _ hq)
      have h2r : ∃ q ∈ rest, timeout < q.2 := by
        rcases h2 with ⟨q, hq, hgt⟩
        rcases List.mem_cons.mp hq with hq1 | hq2
        · rw [hq1] at hgt
          exact absurd hgt he
        · exact ⟨q, hq2, hgt⟩
      simpa [waitForContainer, he] using ih h1r h2r

/-- Every driver effect of the two-stage workflow, with the stage results
abstracted, is the volume creation, a spawn, or an effect of one of the two
supervisions. -/
theorem execStages_effects_shape (j : Job) (bcid ccid : String)
    (bres cres : Except String Int) (beffs ceffs : List Effect) (e : Effect)
    (hbe : ∀ x ∈ beffs, x = Effect.stopContainer bcid)
    (hce : ∀ x ∈ ceffs, x = Effect.stopContainer ccid)
    (he : e ∈ (execStages j bcid ccid bres cres beffs ceffs).2.2) :
    e = Effect.createVolume (workspaceVolumeName j.jobId) ∨
    e = Effect.spawnBuilder bcid ∨
    e = Effect.spawnChecker ccid ∨
    e = Effect.stopContainer bcid ∨
    e = Effect.stopContainer ccid := by
  unfold execStages at he
  split at he
  · rcases List.mem_append.mp he with h | h
    · rcases List.mem_cons.mp h with h1 | h1
      · exact Or.inl h1
      · rcases List.mem_cons.mp h1 with h2 | h2
        · exact Or.inr (Or.inl h2)
        · exact absurd h2 (List.not_mem_nil e)
    · exact Or.inr (Or.inr (Or.inr (Or.inl (hbe e h))))
  · split at he
    · rcases List.mem_append.mp he with h | h
      · rcases List.mem_cons.mp h with h1 | h1
        · exact Or.inl h1
        · rcases List.mem_cons.mp h1 with h2 | h2
          · exact Or.inr (Or.inl h2)
          · exact absurd h2 (List.not_mem_nil e)
      · exact Or.inr (Or.inr (Or.inr (Or.inl (hbe e h))))
    · split at he
      · rcases List.mem_append.mp he with h | h
        · rcases List.mem_append.mp h with h1 | h1
          · rcases List.mem_append.mp h1 with h2 | h2
            · rcases List.mem_cons.mp h2 with h3 | h3
              · exact Or.inl h3
              · rcases List.mem_cons.mp h3 with h4 | h4
                · exact Or.inr (Or.inl h4)
                · exact absurd h4 (List.not_mem_nil e)
            · exact Or.inr (Or.inr (Or.inr (Or.inl (hbe e h2))))
          · rcases List.mem_cons.mp h1 with h2 | h2
            · exact Or.inr (Or.inr (Or.inl h2))
            · exact absurd h2 (List.not_mem_nil e)
        · exact Or.inr (Or.inr (Or.inr (Or.inr (hce e h))))
      · rcases List.mem_append.mp he with h | h
        · rcases List.mem_append.mp h with h1 | h1
          · rcases List.mem_append.mp h1 with h2 | h2
            · rcases List.mem_cons.mp h2 with h3 | h3
              · exact Or.inl h3
              · rcases List.mem_cons.mp h3 with h4 | h4
                · exact Or.inr (Or.inl h4)
                · exact absurd h4 (List.not_mem_nil e)
            · exact Or.inr (Or.inr (Or.inr (Or.inl (hbe e h2))))
          · rcases List.mem_cons.mp h1 with h2 | h2
            · exact Or.inr (Or.inr (Or.inl h2))
            · exact absurd h2 (List.not_mem_nil e)
        · exact Or.inr (Or.inr (Or.inr (Or.inr (hce e h))))

/-- Every driver effect of a job execution is the volume creation, a spawn,
or a stop of one of the job's own containers: in particular `_execute_job`
never releases the workspace volume. -/
theorem executeJob_effects_shape (j : Job) (env : ExecEnv) (e : Effect)
    (he : e ∈ (executeJob j env).2.2) :
    e = Effect.createVolume (workspaceVolumeName j.jobId) ∨
    e = Effect.spawnBuilder env.builderCid ∨
    e = Effect.spawnChecker env.checkerCid ∨
    e = Effect.stopContainer env.builderCid ∨
    e = Effect.stopContainer env.checkerCid := by
  revert he
  unfold executeJob execWithOutcomes
  cases env.setupError with
  | some msg =>
    intro he
    exact absurd he (List.not_mem_nil e)
  | none =>
    intro he
    exact execStages_effects_shape j env.builderCid env.checkerCid _ _ _ _ e
      (fun _ hx => stageEffects_mem _ _ _ hx)
      (fun _ hx => stageEffects_mem _ _ _ hx)
      he

/-- The write sequence of the two-stage workflow, with the stage results
abstracted, is one of the three possible workflows. -/
theorem execStages_writes_shape (j : Job) (bcid ccid : String)
    (bres cres : Except String Int) (beffs ceffs : List Effect) :
    (execStages j bcid ccid bres cres beffs ceffs).2.1.map Prod.fst
        = [JobStatus.building, JobStatus.failed] ∨
    (execStages j bcid ccid bres cres beffs ceffs).2.1.map Prod.fst
        = [JobStatus.building, JobStatus.checking, JobStatus.failed] ∨
    (execStages j bcid ccid bres cres beffs ceffs).2.1.map Prod.fst
        = [JobStatus.building, JobStatus.checking, JobStatus.awaiting_approval] := by
  unfold execStages
  split
  · left; rfl
  · split
    · left; rfl
    · split
      · right; left; rfl
      · right; right; rfl


/-! ## Claim C1: cleanup on every exit path -/

/-- Claim C1, counterexample: a job whose Builder stage is aborted by an
error callback reaches the terminal status `failed` after entering
`building`, yet no container is stopped and the workspace volume is never
released on that path. -/
theorem C1_cleanup_counterexample :
    ((executeJob (submitJob "j1" "w" "/p")
        ⟨none, "b1", "c1", ⟨true, false, some "LLM unreachable", WaitOutcome.exit 0⟩,
          ⟨false, false, none, WaitOutcome.exit 0⟩⟩).2.1.map Prod.fst
      = [JobStatus.building, JobStatus.failed]) ∧
    isTerminal (executeJob (submitJob "j1" "w" "/p")
        ⟨none, "b1", "c1", ⟨true, false, some "LLM unreachable", WaitOutcome.exit 0⟩,
          ⟨false, false, none, WaitOutcome.exit 0⟩⟩).1.status = true ∧
    Effect.createVolume "icarus_workspace_j1"
      ∈ (executeJob (submitJob "j1" "w" "/p")
        ⟨none, "b1", "c1", ⟨true, false, some "LLM unreachable", WaitOutcome.exit 0⟩,
          ⟨false, false, none, WaitOutcome.exit 0⟩⟩).2.2 ∧
    Effect.stopContainer "b1"
      ∉ (executeJob (submitJob "j1" "w" "/p")
        ⟨none, "b1", "c1", ⟨true, false, some "LLM unreachable", WaitOutcome.exit 0⟩,
          ⟨false, false, none, WaitOutcome.exit 0⟩⟩).2.2 ∧
    Effect.removeVolume "icarus_workspace_j1"
      ∉ (executeJob (submitJob "j1" "w" "/p")
        ⟨none, "b1", "c1", ⟨true, false, some "LLM unreachable", WaitOutcome.exit 0⟩,
          ⟨false, false, none, WaitOutcome.exit 0⟩⟩).2.2 := by
  decide

/-- Claim C1, amended: container stop and workspace release run only on the
approval and rejection paths — the execution path itself never releases the
workspace volume, on any outcome, while `approve_job` and `reject_job`
always do. -/
theorem C1_cleanup_amended :
    ∀ (j : Job) (env : ExecEnv) (c : Option String),
      Effect.removeVolume (workspaceVolumeName j.jobId) ∉ (executeJob j env).2.2 ∧
      Effect.removeVolume (workspaceVolumeName j.jobId) ∈ (approveJob j).2.2 ∧
      Effect.removeVolume (workspaceVolumeName j.jobId) ∈ (rejectJob j c).2.2 := by
  intro j env c
  refine ⟨?_, ?_, ?_⟩
  · intro hmem
    rcases executeJob_effects_shape j env _ hmem with h | h | h | h | h <;>
      exact Effect.noConfusion h
  · simp [approveJob]
  · simp [rejectJob]

/-! ## Claim C2: approve / reject only from awaiting_approval -/

/-- Claim C2, counterexample: `approve_job` invoked on a job whose status is
`failed` does not fail with any `InvalidState` error — it performs its two
status writes and leaves the job `completed`, changing the state. -/
theorem C2_approval_guard_counterexample :
    (updateJobStatus (submitJob "j2" "w" "/p") JobStatus.failed (some "boom")).status
        = JobStatus.failed ∧
    (approveJob (updateJobStatus (submitJob "j2" "w" "/p") JobStatus.failed (some "boom"))).1.status
        = JobStatus.completed ∧
    JobStatus.completed ≠ JobStatus.failed ∧
    (approveJob (updateJobStatus (submitJob "j2" "w" "/p") JobStatus.failed (some "boom"))).2.1
        = [(JobStatus.approved, none), (JobStatus.completed, none)] := by
  decide

/-- Claim C2, amended: `approve_job` and `reject_job` perform no status
validation at all — invoked on a job in any status they run their cleanup
and write their statuses unconditionally (approve: `approved` then
`completed`; reject: `rejected`); no `InvalidState` check exists. -/
theorem C2_approval_guard_amended :
    ∀ (j : Job) (c : Option String),
      (approveJob j).1.status = JobStatus.completed ∧
      (approveJob j).2.1 = [(JobStatus.approved, none), (JobStatus.completed, none)] ∧
      (rejectJob j c).1.status = JobStatus.rejected ∧
      (rejectJob j c).2.1 = [(JobStatus.rejected, c)] := by
  intro j c
  refine ⟨rfl, rfl, ?_, rfl⟩
  cases c with
  | none => rfl
  | some s =>
    by_cases hs : s = "" <;> simp [rejectJob, updateJobStatus, hs, isTerminal]

/-! ## Claim C3: permitted edges and terminal write-once -/

/-- Claim C3, counterexample: `approve_job` on a job already in the terminal
status `completed` writes `approved` — an edge the state machine does not
permit, mutating a terminal status. -/
theorem C3_state_machine_counterexample :
    isTerminal (updateJobStatus (submitJob "j3" "w" "/p") JobStatus.completed none).status
        = true ∧
    (approveJob (updateJobStatus (submitJob "j3" "w" "/p") JobStatus.completed none)).2.1.map Prod.fst
        = [JobStatus.approved, JobStatus.completed] ∧
    specAllowedEdge JobStatus.completed JobStatus.approved = false ∧
    (updateJobStatus (updateJobStatus (submitJob "j3" "w" "/p") JobStatus.completed none)
        JobStatus.approved none).status = JobStatus.approved ∧
    JobStatus.approved ≠ JobStatus.completed := by
  decide

/-- Claim C3, amended: when the setup steps succeed, the write sequences
issued by the job supervisor follow only permitted edges from `pending`;
when the job fetch or `create_workspace_volume` raises before the
`BUILDING` write, the supervisor writes `failed` directly from `pending` â
itself a non-permitted edge; the approve / reject write sequences follow
permitted edges from `awaiting_approval`; and `_update_job_status`
validates nothing, so approve / reject invoked on a terminal job overwrite
its status (see the counterexample). -/
theorem C3_state_machine_amended :
    ∀ (j : Job) (env : ExecEnv) (c : Option String),
      (env.setupError = none →
        edgeChain JobStatus.pending ((executeJob j env).2.1.map Prod.fst) = true) ∧
      (∀ msg, env.setupError = some msg →
        (executeJob j env).2.1.map Prod.fst = [JobStatus.failed] ∧
        specAllowedEdge JobStatus.pending JobStatus.failed = false) ∧
      edgeChain JobStatus.awaiting_approval ((approveJob j).2.1.map Prod.fst) = true ∧
      edgeChain JobStatus.awaiting_approval ((rejectJob j c).2.1.map Prod.fst) = true := by
  intro j env c
  refine ⟨?_, ?_, rfl, rfl⟩
  · intro hse
    have hexec : executeJob j env
        = execStages j env.builderCid env.checkerCid
            (stageOutcome env.builderCid (resolveRace env.builderStage))
            (stageOutcome env.checkerCid (resolveRace env.checkerStage))
            (stageEffects env.builderCid (resolveRace env.builderStage))
            (stageEffects env.checkerCid (resolveRace env.checkerStage)) := by
      unfold executeJob execWithOutcomes
      rw [hse]
    rw [hexec]
    rcases execStages_writes_shape j env.builderCid env.checkerCid
        (stageOutcome env.builderCid (resolveRace env.builderStage))
        (stageOutcome env.checkerCid (resolveRace env.checkerStage))
        (stageEffects env.builderCid (resolveRace env.builderStage))
        (stageEffects env.checkerCid (resolveRace env.checkerStage)) with h | h | h <;>
      rw [h] <;> rfl
  · intro msg hse
    have hexec : executeJob j env
        = (updateJobStatus j JobStatus.failed (some msg),
           [(JobStatus.failed, some msg)], []) := by
      unfold executeJob execWithOutcomes
      rw [hse]
    rw [hexec]
    exact ⟨rfl, rfl⟩

/-- Claim C3, amended, witness: a clean run's writes chain through permitted
edges, while a run whose workspace allocation raised writes `failed`
directly from `pending`, a non-permitted edge. -/
theorem C3_state_machine_amended_witness :
    edgeChain JobStatus.pending
        ((executeJob (submitJob "j3w" "w" "/p")
          ⟨none, "b3", "c3", ⟨false, false, none, WaitOutcome.exit 0⟩,
            ⟨false, false, none, WaitOutcome.exit 0⟩⟩).2.1.map Prod.fst) = true ∧
    ((executeJob (submitJob "j3w" "w" "/p")
          ⟨some "500 Server Error: volume create", "b3", "c3",
            ⟨false, false, none, WaitOutcome.exit 0⟩,
            ⟨false, false, none, WaitOutcome.exit 0⟩⟩).2.1.map Prod.fst
        = [JobStatus.failed]) ∧
    specAllowedEdge JobStatus.pending JobStatus.failed = false ∧
    edgeChain JobStatus.awaiting_approval
        ((approveJob (submitJob "j3w" "w" "/p")).2.1.map Prod.fst) = true := by
  have h1 := C3_state_machine_amended (submitJob "j3w" "w" "/p")
    ⟨none, "b3", "c3", ⟨false, false, none, WaitOutcome.exit 0⟩,
      ⟨false, false, none, WaitOutcome.exit 0⟩⟩ none
  have h2 := C3_state_machine_amended (submitJob "j3w" "w" "/p")
    ⟨some "500 Server Error: volume create", "b3", "c3",
      ⟨false, false, none, WaitOutcome.exit 0⟩,
      ⟨false, false, none, WaitOutcome.exit 0⟩⟩ none
  exact ⟨h1.1 rfl, (h2.2.1 "500 Server Error: volume create" rfl).1,
    (h2.2.1 "500 Server Error: volume create" rfl).2, h1.2.2.1⟩

/-! ## Claim C4: no dispatch while YELLOW or RED -/

/-- Claim C4, counterexample: the sentinel enters YELLOW on an earlier 85%
sample, but the admission loop takes a fresh sample of its own — a moment
later the fresh sample reads 75% and the job is dispatched while the
sentinel's level is still YELLOW. -/
theorem C4_admission_counterexample :
    (checkResources defaultSentinelConfig [] ⟨AlertLevel.green, []⟩
        (some ⟨85, 0⟩)).1.level = AlertLevel.yellow ∧
    processQueueStep 0 (some ⟨75, 0⟩) = QueueDecision.dispatch ∧
    AlertLevel.yellow ≠ AlertLevel.green := by
  decide

/-- Claim C4, amended: the admission loop never reads the sentinel's alert
level; it re-enqueues exactly when its own fresh sample has
`max(cpu, ram) ≥ 80` (hardcoded).  Under the default thresholds this agrees
with the level the sentinel would compute from the same sample — a dispatch
implies that sample yields GREEN — but with a stale level (previous sample)
a job is dispatched while the level is YELLOW or RED. -/
theorem C4_admission_amended :
    ∀ (s : HostStats) (n : Nat) (env : List (String × PollStatus)) (st : SentinelState),
      processQueueStep n (some s) = QueueDecision.dispatch →
      n < maxConcurrent ∧
      (checkResources defaultSentinelConfig env st (some s)).1.level = AlertLevel.green := by
  intro s n env st h
  unfold processQueueStep at h
  split at h
  · exact absurd h (by decide)
  · have h2 : (if (80 : ℚ) ≤ maxUsage s then QueueDecision.requeueLoad
        else QueueDecision.dispatch) = QueueDecision.dispatch := h
    by_cases hl : (80 : ℚ) ≤ maxUsage s
    · rw [if_pos hl] at h2
      exact absurd h2 (by decide)
    · rename_i hn
      refine ⟨Nat.lt_of_not_le hn, ?_⟩
      simp only [checkResources]
      have h90 : ¬ (defaultSentinelConfig.redThreshold ≤ maxUsage (getSystemStats (some s))) := by
        show ¬ ((90 : ℚ) ≤ maxUsage s)
        intro hc
        exact hl (le_trans (by norm_num) hc)
      have h80 : ¬ (defaultSentinelConfig.yellowThreshold ≤ maxUsage (getSystemStats (some s))) := by
        show ¬ ((80 : ℚ) ≤ maxUsage s)
        exact hl
      rw [if_neg h90, if_neg h80]
      by_cases hg : st.level = AlertLevel.green
      · rw [if_neg (not_not_intro hg)]
        exact hg
      · rw [if_pos hg]
        exact clearAlerts_level env st

/-- Claim C4, amended, witness at a concrete idle sample. -/
theorem C4_admission_amended_witness :
    processQueueStep 0 (some ⟨10, 10⟩) = QueueDecision.dispatch ∧
    0 < maxConcurrent ∧
    (checkResources defaultSentinelConfig [] ⟨AlertLevel.green, []⟩
        (some ⟨10, 10⟩)).1.level = AlertLevel.green :=
  ⟨by decide,
   (C4_admission_amended ⟨10, 10⟩ 0 [] ⟨AlertLevel.green, []⟩ (by decide)).1,
   (C4_admission_amended ⟨10, 10⟩ 0 [] ⟨AlertLevel.green, []⟩ (by decide)).2⟩

/-! ## Claim C5: telemetry and audit rows are never persisted -/

/-- Claim C5: every construction of a `Telemetry` record (sampler loop and
callback endpoint) passes the keywords `cpu_usage` / `ram_usage_mb`, which
are not columns of the model (its columns are `cpu_percent` / `ram_mb`), and
every `AuditLog` construction passes `audit_report`, which is not a column
(the column is `report`); each append therefore raises instead of inserting,
so no telemetry or audit row is ever committed. -/
theorem C5_rows_never_persisted :
    constructRow telemetryColumns samplerTelemetryKwargs
        = Except.error "cpu_usage is an invalid keyword argument" ∧
    constructRow telemetryColumns callbackTelemetryKwargs
        = Except.error "cpu_usage is an invalid keyword argument" ∧
    constructRow auditLogColumns callbackAuditKwargs
        = Except.error "audit_report is an invalid keyword argument" ∧
    ("cpu_percent" ∈ telemetryColumns ∧ "ram_mb" ∈ telemetryColumns ∧
      "cpu_usage" ∉ telemetryColumns ∧ "ram_usage_mb" ∉ telemetryColumns ∧
      "report" ∈ auditLogColumns ∧ "audit_report" ∉ auditLogColumns) ∧
    (∀ cstat, (collectTelemetryStep cstat).inserted = false) ∧
    (∀ (bus : Bool) (d : CallbackData), (agentCallback bus d).rows = []) := by
  refine ⟨rfl, rfl, rfl, by decide, ?_, ?_⟩
  · intro cstat
    cases cstat with
    | none => rfl
    | some s => cases s <;> rfl
  · intro bus d
    have hta : constructRow telemetryColumns callbackTelemetryKwargs
        = Except.error "cpu_usage is an invalid keyword argument" := rfl
    have hau : constructRow auditLogColumns callbackAuditKwargs
        = Except.error "audit_report is an invalid keyword argument" := rfl
    unfold agentCallback handleAudit
    cases hct : d.currentTool with
    | some tool => simp [hta]
    | none =>
      cases har : d.auditReport with
      | some r => simp [har, hau]
      | none => simp [har]

/-! ## Claim C6: the three-way supervision race -/

/-- Claim C6: the supervisor races container exit, the error event and the
complete event, and acts on the first to complete with error taking
precedence: an error event fails the stage and its text is captured in
`error_message`; a complete event is treated as exit code 0 (the workflow
proceeds to the Checker); otherwise the container's actual exit code is
used; the other waiters are cancelled, so secondary events have no effect
(the first conjunct holds for every value of the other two outcomes). -/
theorem C6_three_way_race :
    (∀ (cid txt : String) (cd : Bool) (w : WaitOutcome),
        stageOutcome cid (resolveRace ⟨true, cd, some txt, w⟩)
          = Except.error ("Agent error: " ++ txt)) ∧
    (∀ (cid : String) (slot : Option String) (w : WaitOutcome),
        stageOutcome cid (resolveRace ⟨false, true, slot, w⟩) = Except.ok 0) ∧
    (∀ (cid : String) (slot : Option String) (c : Int),
        stageOutcome cid (resolveRace ⟨false, false, slot, WaitOutcome.exit c⟩)
          = Except.ok c) ∧
    ((executeJob (submitJob "j6" "w" "/p")
        ⟨none, "b6", "c6", ⟨true, true, some "LLM unreachable", WaitOutcome.exit 0⟩,
          ⟨false, false, none, WaitOutcome.exit 0⟩⟩).1.status = JobStatus.failed ∧
     (executeJob (submitJob "j6" "w" "/p")
        ⟨none, "b6", "c6", ⟨true, true, some "LLM unreachable", WaitOutcome.exit 0⟩,
          ⟨false, false, none, WaitOutcome.exit 0⟩⟩).1.errorMessage
        = some "Agent error: LLM unreachable") ∧
    ((executeJob (submitJob "j6" "w" "/p")
        ⟨none, "b6", "c6", ⟨false, true, none, WaitOutcome.exit 7⟩,
          ⟨false, false, none, WaitOutcome.exit 0⟩⟩).2.1.map Prod.fst
        = [JobStatus.building, JobStatus.checking, JobStatus.awaiting_approval]) := by
  exact ⟨fun cid txt cd w => rfl, fun cid slot w => rfl, fun cid slot c => rfl,
    ⟨by decide, by decide⟩, by decide⟩

/-! ## Claim C7: the 600-second stage budget -/

/-- Claim C7: each stage's wait carries the 600 s default budget; on a trace
where the container keeps polling as `running` and the elapsed time exceeds
the budget, `_wait_for_container` stops the container and raises a timeout
error, and the job is then marked `failed` with the timeout reason recorded
in its error message. -/
theorem C7_stage_timeout :
    ∀ (cid : String) (trace : List (PollStatus × Nat)),
      (∀ p ∈ trace, p.1 = PollStatus.running) →
      (∃ p ∈ trace, stageTimeoutDefault < p.2) →
      stageTimeoutDefault = 600 ∧
      waitForContainer cid stageTimeoutDefault trace
        = (some (WaitOutcome.timeout stageTimeoutDefault), [Effect.stopContainer cid]) ∧
      ∀ (j : Job) (ccid : String) (cst : StageEnv),
        (executeJob j ⟨none, cid, ccid,
            ⟨false, false, none, WaitOutcome.timeout stageTimeoutDefault⟩, cst⟩).1.status
          = JobStatus.failed ∧
        (executeJob j ⟨none, cid, ccid,
            ⟨false, false, none, WaitOutcome.timeout stageTimeoutDefault⟩, cst⟩).1.errorMessage
          = some ("Container " ++ cid ++ " exceeded " ++ toString stageTimeoutDefault
              ++ "s timeout") := by
  intro cid trace h1 h2
  exact ⟨rfl, waitForContainer_timeout cid stageTimeoutDefault trace h1 h2,
    fun j ccid cst => ⟨rfl, rfl⟩⟩

/-- Claim C7, witness: a Builder polling `running` at 300 s and 601 s is
stopped with the timeout raised, and the job fails with the timeout reason. -/
theorem C7_stage_timeout_witness :
    waitForContainer "b7" stageTimeoutDefault
        [(PollStatus.running, 300), (PollStatus.running, 601)]
      = (some (WaitOutcome.timeout stageTimeoutDefault), [Effect.stopContainer "b7"]) ∧
    (executeJob (submitJob "j7" "w" "/p")
        ⟨none, "b7", "c7", ⟨false, false, none, WaitOutcome.timeout stageTimeoutDefault⟩,
          ⟨false, false, none, WaitOutcome.exit 0⟩⟩).1.status = JobStatus.failed ∧
    (executeJob (submitJob "j7" "w" "/p")
        ⟨none, "b7", "c7", ⟨false, false, none, WaitOutcome.timeout stageTimeoutDefault⟩,
          ⟨false, false, none, WaitOutcome.exit 0⟩⟩).1.errorMessage
      = some "Container b7 exceeded 600s timeout" := by
  have h := C7_stage_timeout "b7" [(PollStatus.running, 300), (PollStatus.running, 601)]
    (by
      intro p hp
      rcases List.mem_cons.mp hp with h1 | h1
      · rw [h1]
      · rcases List.mem_cons.mp h1 with h2 | h2
        · rw [h2]
        · exact absurd h2 (List.not_mem_nil p))
    ⟨(PollStatus.running, 601),
      List.mem_cons_of_mem _ (List.mem_cons_self _ _), by decide⟩
  exact ⟨h.2.1,
    (h.2.2 (submitJob "j7" "w" "/p") "c7" ⟨false, false, none, WaitOutcome.exit 0⟩).1,
    (h.2.2 (submitJob "j7" "w" "/p") "c7" ⟨false, false, none, WaitOutcome.exit 0⟩).2⟩

/-! ## Claim C8: sampling failure keeps the previous level -/

/-- Claim C8, counterexample: with the sentinel in RED remembering a paused
container, one failed host sample (zeroed safe defaults) clears the level to
GREEN and resumes the container — the previous level is not kept and a
resume is issued as a consequence of the failed sample. -/
theorem C8_sampling_failure_counterexample :
    checkResources defaultSentinelConfig [("c1", PollStatus.paused)]
        ⟨AlertLevel.red, ["c1"]⟩ none
      = (⟨AlertLevel.green, []⟩, [Effect.resumeContainer "c1"]) ∧
    AlertLevel.green ≠ AlertLevel.red := by
  decide

/-- Claim C8, amended: a sampling failure is non-fatal and logged, but
`get_system_stats` returns zeroed defaults instead of propagating it, so the
poll treats the host as idle: whatever the previous level was, the level
after a failed sample is GREEN (and leaving RED this way resumes the
remembered containers). -/
theorem C8_sampling_failure_amended :
    ∀ (cfg : SentinelConfig) (env : List (String × PollStatus)) (st : SentinelState),
      0 < cfg.yellowThreshold → cfg.yellowThreshold ≤ cfg.redThreshold →
      (checkResources cfg env st none).1.level = AlertLevel.green := by
  intro cfg env st hy hyr
  have hstats : maxUsage (getSystemStats none) = 0 := by
    show maxUsage ⟨0, 0⟩ = 0
    simp [maxUsage]
  simp only [checkResources]
  have h90 : ¬ (cfg.redThreshold ≤ maxUsage (getSystemStats none)) := by
    rw [hstats]
    intro hc
    exact absurd (lt_of_lt_of_le hy (le_trans hyr hc)) (lt_irrefl 0)
  have h80 : ¬ (cfg.yellowThreshold ≤ maxUsage (getSystemStats none)) := by
    rw [hstats]
    intro hc
    exact absurd (lt_of_lt_of_le hy hc) (lt_irrefl 0)
  rw [if_neg h90, if_neg h80]
  by_cases hg : st.level = AlertLevel.green
  · rw [if_neg (not_not_intro hg)]
    exact hg
  · rw [if_pos hg]
    exact clearAlerts_level env st

/-- Claim C8, amended, witness: a failed sample under default thresholds
clears a YELLOW level to GREEN. -/
theorem C8_sampling_failure_amended_witness :
    0 < defaultSentinelConfig.yellowThreshold ∧
    (checkResources defaultSentinelConfig [] ⟨AlertLevel.yellow, []⟩ none).1.level
      = AlertLevel.green :=
  ⟨by decide,
   C8_sampling_failure_amended defaultSentinelConfig [] ⟨AlertLevel.yellow, []⟩
     (by decide) (by decide)⟩

/-! ## Claim C9: callbacks for missing or terminal jobs -/

/-- Claim C9, counterexample: a callback payload carrying `current_tool` for
a missing job is not accepted with a 200 — the broken `Telemetry`
construction raises and the endpoint answers HTTP 500. -/
theorem C9_callback_drop_counterexample :
    agentCallback false ⟨some "bash", none, none, none, none, none⟩
      = ⟨HttpResult.error500, [], []⟩ ∧
    HttpResult.error500 ≠ HttpResult.ok200 := by
  decide

/-- Claim C9, amended: a callback for a missing or terminal job (no per-job
bus) signals no event and commits no row; a payload containing neither
`current_tool` nor `audit_report` is accepted with a 200 and dropped, but a
payload carrying either of those fields hits the broken record constructors
and is answered with HTTP 500. -/
theorem C9_callback_drop_amended :
    ∀ d : CallbackData,
      (agentCallback false d).signals = [] ∧
      (agentCallback false d).rows = [] ∧
      (d.currentTool = none → d.auditReport = none →
        agentCallback false d = ⟨HttpResult.ok200, [], []⟩) := by
  intro d
  have hta : constructRow telemetryColumns callbackTelemetryKwargs
      = Except.error "cpu_usage is an invalid keyword argument" := rfl
  have hau : constructRow auditLogColumns callbackAuditKwargs
      = Except.error "audit_report is an invalid keyword argument" := rfl
  unfold agentCallback handleAudit
  cases hct : d.currentTool with
  | some tool =>
    refine ⟨by simp [hta], by simp [hta], ?_⟩
    intro hc
    exact Option.noConfusion hc
  | none =>
    cases har : d.auditReport with
    | some r =>
      refine ⟨by simp [har, hau], by simp [har, hau], ?_⟩
      intro _ hc
      exact Option.noConfusion hc
    | none =>
      refine ⟨by simp [har, handleStatusSignals_busAbsent], by simp [har], ?_⟩
      intro _ _
      simp [har, handleStatusSignals_busAbsent]

/-- Claim C9, amended, witness: a pure completion signal for a missing job
is acknowledged with a 200 and has no effect. -/
theorem C9_callback_drop_amended_witness :
    (agentCallback false ⟨none, none, none, some "completed", none, none⟩).signals = [] ∧
    (agentCallback false ⟨none, none, none, some "completed", none, none⟩).rows = [] ∧
    agentCallback false ⟨none, none, none, some "completed", none, none⟩
      = ⟨HttpResult.ok200, [], []⟩ := by
  have h := C9_callback_drop_amended ⟨none, none, none, some "completed", none, none⟩
  exact ⟨h.1, h.2.1, h.2.2 rfl rfl⟩

/-! ## Claim C10: Builder non-zero exit -/

/-- Claim C10, counterexample: when the Builder exits with code 2 the job is
marked `failed`, but its `error_message` is
`"Builder exited with non-zero code: 2"`, which does not contain the literal
substring `"exit code 2"`. -/
theorem C10_builder_exit_counterexample :
    (executeJob (submitJob "j10" "w" "/p")
        ⟨none, "b10", "c10", ⟨false, false, none, WaitOutcome.exit 2⟩,
          ⟨false, false, none, WaitOutcome.exit 0⟩⟩).1.status = JobStatus.failed ∧
    (executeJob (submitJob "j10" "w" "/p")
        ⟨none, "b10", "c10", ⟨false, false, none, WaitOutcome.exit 2⟩,
          ⟨false, false, none, WaitOutcome.exit 0⟩⟩).1.errorMessage
      = some "Builder exited with non-zero code: 2" ∧
    strContains "Builder exited with non-zero code: 2" "exit code 2" = false := by
  decide

/-- Claim C10, amended: a Builder exit with code 2 marks the job `failed`
with `error_message` equal to `"Builder exited with non-zero code: 2"`
(which contains `"code: 2"` but not the literal `"exit code 2"`), and the
Checker container is never spawned for that job. -/
theorem C10_builder_exit_amended :
    ∀ (j : Job) (bcid ccid : String) (cst : StageEnv),
      (executeJob j ⟨none, bcid, ccid, ⟨false, false, none, WaitOutcome.exit 2⟩, cst⟩).1.status
          = JobStatus.failed ∧
      (executeJob j ⟨none, bcid, ccid, ⟨false, false, none, WaitOutcome.exit 2⟩, cst⟩).1.errorMessage
          = some "Builder exited with non-zero code: 2" ∧
      strContains "Builder exited with non-zero code: 2" "code: 2" = true ∧
      ∀ c : String, Effect.spawnChecker c
          ∉ (executeJob j ⟨none, bcid, ccid, ⟨false, false, none, WaitOutcome.exit 2⟩, cst⟩).2.2 := by
  intro j bcid ccid cst
  refine ⟨rfl, rfl, by decide, ?_⟩
  intro c hmem
  have heq : (executeJob j ⟨none, bcid, ccid, ⟨false, false, none, WaitOutcome.exit 2⟩, cst⟩).2.2
      = [Effect.createVolume (workspaceVolumeName j.jobId), Effect.spawnBuilder bcid] := rfl
  rw [heq] at hmem
  rcases List.mem_cons.mp hmem with h | h
  · exact Effect.noConfusion h
  · rcases List.mem_cons.mp h with h2 | h2
    · exact Effect.noConfusion h2
    · exact absurd h2 (List.not_mem_nil _)
